import Mathlib

/-!
Verification of the BudgetBuddy personal finance tracker
(`src/app.py`, `src/helpers.py`) against its specification.

The Python code is shallowly embedded: SQLite rows become a `Txn`
structure, currency amounts become `ℚ` (the stored column is `REAL`;
we work with exact rationals), Python dicts with insertion order become
association lists, Python `sorted` (a stable sort) becomes
`List.insertionSort` (also stable), and fallible code returns `Except`.
-/

namespace BudgetBuddy

/-- One row of the `transactions` table
(`init_db` in `src/app.py`: `user_id INTEGER, description TEXT,
category TEXT, type TEXT, amount REAL, date TEXT`, all NOT NULL). -/
structure Txn where
  user_id : ℤ
  description : String
  category : String
  type : String
  amount : ℚ
  date : String
deriving DecidableEq, Repr

/-- Python `int()` applied to a number: truncation toward zero. -/
def pyInt (x : ℚ) : ℤ := if 0 ≤ x then ⌊x⌋ else ⌈x⌉

/-- `calculate_financial_health(total_income, total_expenses)` from
`src/helpers.py` lines 380-403.  Python `None` is `Option.none`; the
`x or 0` normalisations are identity on already-numeric inputs.
The score is `max(0, 100 - int(expense_ratio * 100))` — note `int`,
i.e. truncation, not rounding. -/
def calculate_financial_health (total_income total_expenses : ℚ) : Option ℤ :=
  if total_income = 0 ∧ total_expenses = 0 then
    none
  else if total_income = 0 then
    some 0
  else
    some (max 0 (100 - pyInt (total_expenses / total_income * 100)))

/-- Modelled from the spec (section 4.3 `health_score`): the spec's
formula `max(0, 100 - round(100 × expenses/income))` with the same
zero-income cases, written with rounding as the spec states it.  Used
only to compare against `calculate_financial_health`. -/
def health_score_spec (total_income total_expenses : ℚ) : Option ℤ :=
  if total_income = 0 ∧ total_expenses = 0 then
    none
  else if total_income = 0 then
    some 0
  else
    some (max 0 (100 - round (100 * total_expenses / total_income)))

theorem pyInt_eq_floor {x : ℚ} (h : 0 ≤ x) : pyInt x = ⌊x⌋ := by
  simp [pyInt, h]

/-- C1 counterexample: at `total_income = 3`, `total_expenses = 2` the
code truncates `200/3 = 66.67` to `66` and returns a score of `34`,
while the spec's rounding formula gives `100 - 67 = 33`. -/
theorem calculate_financial_health_ne_spec_at_3_2 :
    calculate_financial_health 3 2 = some 34 ∧ health_score_spec 3 2 = some 33 := by
  constructor
  · norm_num [calculate_financial_health, pyInt]
  · norm_num [health_score_spec, round_eq]

/-- C1 (amended): with non-negative totals, the health score is the
no-data sentinel when both totals are zero, `0` when income is zero but
expenses are not, and otherwise `max(0, 100 - ⌊100·expenses/income⌋)` —
truncation (floor on these non-negative ratios), not rounding; the
spec's listed particular values all hold. -/
theorem calculate_financial_health_characterisation
    (i e : ℚ) (hi : 0 ≤ i) (he : 0 ≤ e) :
    (calculate_financial_health i e =
      if i = 0 ∧ e = 0 then none
      else if i = 0 then some 0
      else some (max 0 (100 - ⌊e / i * 100⌋))) ∧
    calculate_financial_health 0 0 = none ∧
    (0 < e → calculate_financial_health 0 e = some 0) ∧
    calculate_financial_health 100 0 = some 100 ∧
    calculate_financial_health 100 50 = some 50 ∧
    calculate_financial_health 100 150 = some 0 := by
  refine ⟨?_, by simp [calculate_financial_health], ?_, ?_, ?_, ?_⟩
  · unfold calculate_financial_health
    by_cases h0 : i = 0 ∧ e = 0
    · simp [h0]
    · simp only [h0, if_false]
      by_cases hiz : i = 0
      · simp [hiz]
      · have hipos : 0 < i := lt_of_le_of_ne hi (Ne.symm hiz)
        have hr : 0 ≤ e / i * 100 := by positivity
        simp [hiz, pyInt_eq_floor hr]
  · intro hepos
    simp [calculate_financial_health, ne_of_gt hepos]
  · norm_num [calculate_financial_health, pyInt]
  · norm_num [calculate_financial_health, pyInt]
  · norm_num [calculate_financial_health, pyInt]

/-- Witness for the amended C1 theorem at concrete inputs. -/
theorem calculate_financial_health_characterisation_witness :
    (0 : ℚ) ≤ 100 ∧ (0 : ℚ) ≤ 50 ∧
    calculate_financial_health 100 50 = some 50 := by
  refine ⟨by norm_num, by norm_num, ?_⟩
  exact (calculate_financial_health_characterisation 100 50 (by norm_num)
    (by norm_num)).2.2.2.2.1

/-! ## Transaction Formatter (`format_transactions`, src/helpers.py 344-349) -/

/-- Python `s.split(" ")[0]`: the prefix of `s` before the first space
(the whole of `s` when it has no space). -/
def truncDate (s : String) : String := ⟨s.data.takeWhile (fun c => c != ' ')⟩

/-- The per-record body of the `for` loop in `format_transactions`:
`txn["date"] = txn["date"].split(" ")[0]`, all other keys untouched. -/
def format_txn (t : Txn) : Txn := { t with date := truncDate t.date }

/-- `format_transactions(transactions)` from `src/helpers.py` 344-349:
dict conversion (identity on our typed records) plus date truncation. -/
def format_transactions (txns : List Txn) : List Txn := txns.map format_txn

theorem takeWhile_takeWhile_self {α : Type} (p : α → Bool) :
    ∀ l : List α, (l.takeWhile p).takeWhile p = l.takeWhile p
  | [] => rfl
  | a :: l => by
    by_cases h : p a
    · simp [List.takeWhile_cons, h, takeWhile_takeWhile_self p l]
    · simp [List.takeWhile_cons, h]

theorem takeWhile_eq_self_of_all {α : Type} (p : α → Bool) :
    ∀ l : List α, l.all p = true → l.takeWhile p = l
  | [], _ => rfl
  | a :: l, h => by
    simp only [List.all_cons, Bool.and_eq_true] at h
    simp [List.takeWhile_cons, h.1, takeWhile_eq_self_of_all p l h.2]

theorem truncDate_idem (s : String) : truncDate (truncDate s) = truncDate s :=
  congrArg String.mk (takeWhile_takeWhile_self _ s.data)

theorem truncDate_no_space (s : String)
    (h : s.data.all (fun c => c != ' ') = true) : truncDate s = s := by
  unfold truncDate
  rw [takeWhile_eq_self_of_all _ s.data h]

/-- C7: the formatter is idempotent; each pass rewrites only the `date`
field, replacing it by its prefix before the first space, and a date
with no space is left unchanged. -/
theorem format_transactions_idempotent :
    (∀ txns : List Txn,
        format_transactions (format_transactions txns) = format_transactions txns) ∧
    (∀ t : Txn,
        (format_txn t).user_id = t.user_id ∧
        (format_txn t).description = t.description ∧
        (format_txn t).category = t.category ∧
        (format_txn t).type = t.type ∧
        (format_txn t).amount = t.amount ∧
        (format_txn t).date = truncDate t.date) ∧
    (∀ t : Txn, t.date.data.all (fun c => c != ' ') = true → format_txn t = t) := by
  refine ⟨?_, ?_, ?_⟩
  · intro txns
    simp only [format_transactions, List.map_map]
    apply List.map_congr_left
    intro t _
    simp [format_txn, Function.comp, truncDate_idem]
  · intro t
    simp [format_txn]
  · intro t h
    cases t with
    | mk u ds c ty a d => simp [format_txn, truncDate_no_space _ h]

/-- Witness for C7 at a concrete already-formatted transaction. -/
theorem format_transactions_idempotent_witness :
    (String.data "2024-01-01").all (fun c => c != ' ') = true ∧
    format_txn ⟨1, "rent", "Housing", "expenses", 500, "2024-01-01"⟩ =
      ⟨1, "rent", "Housing", "expenses", 500, "2024-01-01"⟩ :=
  ⟨by decide, format_transactions_idempotent.2.2
    ⟨1, "rent", "Housing", "expenses", 500, "2024-01-01"⟩ (by decide)⟩

/-! ## Aggregator: transaction summary (`get_transaction_summary`,
src/helpers.py 320-341) -/

/-- SQLite `SELECT SUM(amount) FROM transactions WHERE <p>`: `NULL`
(here `none`) when no row matches, otherwise the exact sum. -/
def sqlSumAmount (db : List Txn) (p : Txn → Bool) : Option ℚ :=
  match db.filter p with
  | [] => none
  | l => some ((l.map Txn.amount).sum)

/-- Python `x or 0` applied to a fetched `SUM`: `None` becomes `0`
(a falsy numeric `0` is replaced by the literal `0`, the same value). -/
def pyOr0 (x : Option ℚ) : ℚ :=
  match x with
  | none => 0
  | some v => v

/-- `get_transaction_summary(user_id)` from `src/helpers.py` 320-341,
over an explicit database state `db`: the two `SUM` queries with the
`or 0` defaults, and `balance = total_income - total_expenses`. -/
def get_transaction_summary (db : List Txn) (uid : ℤ) : ℚ × ℚ × ℚ :=
  let total_income := pyOr0 (sqlSumAmount db (fun t => t.user_id == uid && t.type == "income"))
  let total_expenses := pyOr0 (sqlSumAmount db (fun t => t.user_id == uid && t.type == "expenses"))
  (total_income, total_expenses, total_income - total_expenses)

theorem pyOr0_sqlSumAmount (db : List Txn) (p : Txn → Bool) :
    pyOr0 (sqlSumAmount db p) = ((db.filter p).map Txn.amount).sum := by
  unfold sqlSumAmount
  cases h : db.filter p with
  | nil => simp [pyOr0]
  | cons a l => simp [pyOr0]

/-- C4: the summary is `(total_income, total_expenses, balance)` where
the totals are the exact sums of the user's income-typed and
expenses-typed amounts, the balance is exactly their difference, and an
empty database yields `(0, 0, 0)` rather than an error. -/
theorem get_transaction_summary_correct (db : List Txn) (uid : ℤ) :
    (get_transaction_summary db uid).1 =
      ((db.filter (fun t => t.user_id == uid && t.type == "income")).map Txn.amount).sum ∧
    (get_transaction_summary db uid).2.1 =
      ((db.filter (fun t => t.user_id == uid && t.type == "expenses")).map Txn.amount).sum ∧
    (get_transaction_summary db uid).2.2 =
      (get_transaction_summary db uid).1 - (get_transaction_summary db uid).2.1 ∧
    (db = [] → get_transaction_summary db uid = (0, 0, 0)) := by
  refine ⟨?_, ?_, rfl, ?_⟩
  · exact pyOr0_sqlSumAmount db _
  · exact pyOr0_sqlSumAmount db _
  · rintro rfl
    simp [get_transaction_summary, sqlSumAmount, pyOr0]

/-- Witness for C4 at the empty database. -/
theorem get_transaction_summary_correct_witness :
    ([] : List Txn) = [] ∧ get_transaction_summary [] 1 = (0, 0, 0) :=
  ⟨rfl, (get_transaction_summary_correct [] 1).2.2.2 rfl⟩

/-! ## Category Summarizer (`get_category_summary`, src/helpers.py 351-365) -/

/-- One `category_summary[category] += amount` step on an
insertion-ordered Python dict, including the `if category not in ...`
zero-initialisation. -/
def upsert : List (String × ℚ) → String → ℚ → List (String × ℚ)
  | [], c, a => [(c, a)]
  | (k, v) :: rest, c, a =>
      if k = c then (k, v + a) :: rest else (k, v) :: upsert rest c a

/-- `get_category_summary(transactions)` from `src/helpers.py` 351-365.
The loop keeps only records whose `type` equals the literal `"expense"`
(exactly as written in the source — the stored enum elsewhere is
`"expenses"`), accumulates per-category sums in dict insertion order,
then re-sorts descending by amount; Python `sorted` is stable, as is
`List.insertionSort`. -/
def get_category_summary (txns : List Txn) : List (String × ℚ) :=
  let category_summary := txns.foldl
    (fun acc t => if t.type == "expense" then upsert acc t.category t.amount else acc) []
  List.insertionSort (fun x y : String × ℚ => y.2 ≤ x.2) category_summary

/-- C2 (code bug): on a transaction whose `type` is the stored enum
value `"expenses"`, the summarizer returns the empty mapping — its
filter tests `type == "expense"`, which never matches — instead of the
`Food ↦ 10` mapping the specification requires. -/
theorem get_category_summary_drops_expenses_rows :
    get_category_summary [⟨1, "lunch", "Food", "expenses", 10, "2024-01-01"⟩] = [] := by
  rfl

/-! ## Dashboard data feed (`dashboard_data`, src/app.py 225-288):
category percentages -/

/-- The doughnut totals of `dashboard_data` (src/app.py 236-240): the
same `SUM ... WHERE type='income'` query with `or 0` default. -/
def dashboard_total_income (db : List Txn) (uid : ℤ) : ℚ :=
  pyOr0 (sqlSumAmount db (fun t => t.user_id == uid && t.type == "income"))

/-- src/app.py 239-240: `SUM ... WHERE type='expenses'` with `or 0`. -/
def dashboard_total_expenses (db : List Txn) (uid : ℤ) : ℚ :=
  pyOr0 (sqlSumAmount db (fun t => t.user_id == uid && t.type == "expenses"))

/-- The `GROUP BY category` query of src/app.py 243-249: per-category
sums over the user's `type='expenses'` rows.  SQLite does not fix the
output order of an un-`ORDER BY`ed `GROUP BY`; we list groups in first
encounter order, which is immaterial to every property proved here
(sums and key→value associations). -/
def categories_data (db : List Txn) (uid : ℤ) : List (String × ℚ) :=
  (db.filter (fun t => t.user_id == uid && t.type == "expenses")).foldl
    (fun acc t => upsert acc t.category t.amount) []

/-- The percentage loop of src/app.py 251-258: starts from the empty
dict and fills it only under `if total_income > 0`, each category
mapping to `total_spent / total_income * 100`. -/
def category_percentages (cats : List (String × ℚ)) (total_income : ℚ) :
    List (String × ℚ) :=
  if 0 < total_income then
    cats.map (fun p => (p.1, p.2 / total_income * 100))
  else []

/-- `percentages` as returned by `dashboard_data` (src/app.py 262):
the values of the percentage dict. -/
def dashboard_percentages (db : List Txn) (uid : ℤ) : List ℚ :=
  (category_percentages (categories_data db uid)
    (dashboard_total_income db uid)).map Prod.snd

/-- Sum of the values of an association list. -/
def valuesSum (l : List (String × ℚ)) : ℚ := (l.map Prod.snd).sum

theorem valuesSum_upsert (l : List (String × ℚ)) (c : String) (a : ℚ) :
    valuesSum (upsert l c a) = valuesSum l + a := by
  induction l with
  | nil => simp [upsert, valuesSum]
  | cons p rest ih =>
    obtain ⟨k, v⟩ := p
    by_cases h : k = c
    · simp [upsert, h, valuesSum, add_assoc, add_comm a]
    · simp only [upsert, h, if_false, valuesSum, List.map_cons, List.sum_cons]
      have h2 := ih
      simp only [valuesSum] at h2
      rw [h2]
      ring

theorem valuesSum_fold (rows : List Txn) :
    ∀ acc : List (String × ℚ),
      valuesSum (rows.foldl (fun acc t => upsert acc t.category t.amount) acc) =
        valuesSum acc + (rows.map Txn.amount).sum := by
  induction rows with
  | nil => intro acc; simp
  | cons r rest ih =>
    intro acc
    simp only [List.foldl_cons, List.map_cons, List.sum_cons]
    rw [ih (upsert acc r.category r.amount), valuesSum_upsert]
    ring

theorem valuesSum_categories_data (db : List Txn) (uid : ℤ) :
    valuesSum (categories_data db uid) = dashboard_total_expenses db uid := by
  rw [categories_data, valuesSum_fold, dashboard_total_expenses, pyOr0_sqlSumAmount]
  simp [valuesSum]

theorem sum_map_div_mul (l : List ℚ) (ti : ℚ) :
    (l.map (fun v => v / ti * 100)).sum = l.sum / ti * 100 := by
  induction l with
  | nil => simp
  | cons a rest ih => simp [ih, add_div, add_mul]

/-- The percentages always sum to exactly
`total_expenses / total_income × 100` when income is positive. -/
theorem dashboard_percentages_sum (db : List Txn) (uid : ℤ)
    (hti : 0 < dashboard_total_income db uid) :
    (dashboard_percentages db uid).sum =
      dashboard_total_expenses db uid / dashboard_total_income db uid * 100 := by
  rw [dashboard_percentages, category_percentages, if_pos hti, List.map_map,
    ← valuesSum_categories_data db uid]
  have : (Prod.snd ∘ fun p : String × ℚ =>
      (p.1, p.2 / dashboard_total_income db uid * 100)) =
      (fun v => v / dashboard_total_income db uid * 100) ∘ Prod.snd := rfl
  rw [this, ← List.map_map, sum_map_div_mul]
  rfl

/-- C3 counterexample: with one income of 100 and one expense of 150
(all amounts non-negative, total income positive), the category
percentages sum to 150, not at most 100. -/
theorem dashboard_percentages_sum_gt_100 :
    ([⟨1, "salary", "Salary", "income", 100, "2024-01-01"⟩,
      ⟨1, "tv", "Electronics", "expenses", 150, "2024-01-02"⟩] : List Txn).all
        (fun t => decide (0 ≤ t.amount)) = true ∧
    dashboard_total_income
      [⟨1, "salary", "Salary", "income", 100, "2024-01-01"⟩,
       ⟨1, "tv", "Electronics", "expenses", 150, "2024-01-02"⟩] 1 = 100 ∧
    (dashboard_percentages
      [⟨1, "salary", "Salary", "income", 100, "2024-01-01"⟩,
       ⟨1, "tv", "Electronics", "expenses", 150, "2024-01-02"⟩] 1).sum = 150 ∧
    ¬ ((150 : ℚ) ≤ 100) := by
  refine ⟨by decide, ?_, ?_, by norm_num⟩
  · simp +decide [dashboard_total_income, sqlSumAmount, pyOr0, List.filter]
  · simp +decide [dashboard_percentages, dashboard_total_income, category_percentages,
      categories_data, sqlSumAmount, pyOr0, List.filter, upsert]

/-- C3 (amended): when every amount is non-negative, total income is
positive and total expenses do not exceed total income, the category
percentages sum to at most 100 (they always sum to exactly
`total_expenses/total_income × 100`). -/
theorem dashboard_percentages_sum_le_100 (db : List Txn) (uid : ℤ)
    (hamt : ∀ t ∈ db, 0 ≤ t.amount)
    (hti : 0 < dashboard_total_income db uid)
    (hle : dashboard_total_expenses db uid ≤ dashboard_total_income db uid) :
    (dashboard_percentages db uid).sum ≤ 100 := by
  rw [dashboard_percentages_sum db uid hti]
  calc dashboard_total_expenses db uid / dashboard_total_income db uid * 100
      ≤ 1 * 100 := by
        apply mul_le_mul_of_nonneg_right _ (by norm_num)
        exact (div_le_one hti).mpr hle
    _ = 100 := one_mul 100

/-- Witness for the amended C3 at a concrete database. -/
theorem dashboard_percentages_sum_le_100_witness :
    (dashboard_percentages
      [⟨1, "salary", "Salary", "income", 100, "2024-01-01"⟩,
       ⟨1, "food", "Food", "expenses", 40, "2024-01-02"⟩] 1).sum ≤ 100 := by
  apply dashboard_percentages_sum_le_100
  · intro t ht
    fin_cases ht <;> norm_num
  · simp +decide [dashboard_total_income, sqlSumAmount, pyOr0, List.filter]
  · simp +decide [dashboard_total_income, dashboard_total_expenses, sqlSumAmount,
      pyOr0, List.filter]

/-- C6: the category-percentage computation never divides by zero —
with zero total income the mapping is empty rather than an error, and
with positive total income every expense category maps to
`category_total / total_income × 100`. -/
theorem category_percentages_total (db : List Txn) (uid : ℤ) (ti : ℚ) :
    (ti = 0 → category_percentages (categories_data db uid) ti = []) ∧
    (0 < ti → category_percentages (categories_data db uid) ti =
      (categories_data db uid).map (fun p => (p.1, p.2 / ti * 100))) := by
  constructor
  · rintro rfl
    simp [category_percentages]
  · intro h
    simp [category_percentages, h]

/-- Witness for C6: zero income gives the empty mapping on a database
that does contain an expense row. -/
theorem category_percentages_total_witness :
    category_percentages
      (categories_data [⟨1, "food", "Food", "expenses", 40, "2024-01-02"⟩] 1) 0 = [] :=
  (category_percentages_total
    [⟨1, "food", "Food", "expenses", 40, "2024-01-02"⟩] 1 0).1 rfl

/-! ## Dashboard data feed: trend series (src/app.py 264-278) -/

/-- One loop step of src/app.py 266-273 on the insertion-ordered
`trends` dict: `defaultdict` creates `{"income": 0, "expenses": 0}` on
first touch of a date, then the income side is incremented when
`txn_type == "income"` and the expenses side otherwise. -/
def trendUpd (ts : List (String × ℚ × ℚ)) (d : String) (isInc : Bool) (a : ℚ) :
    List (String × ℚ × ℚ) :=
  match ts with
  | [] => [(d, if isInc then (a, 0) else (0, a))]
  | (k, p) :: rest =>
      if k = d then
        (k, if isInc then (p.1 + a, p.2) else (p.1, p.2 + a)) :: rest
      else (k, p) :: trendUpd rest d isInc a

/-- The `trends` dict after the loop of src/app.py 265-273, over the
user's fetched rows.  (The query's `ORDER BY date ASC` only affects the
dict's insertion order, which the `sorted` call below erases.) -/
def trends (rows : List Txn) : List (String × ℚ × ℚ) :=
  rows.foldl (fun ts r => trendUpd ts r.date (r.type == "income") r.amount) []

/-- `trends[date]` read-back; the `defaultdict` default `(0, 0)` for an
absent date. -/
def lookupTrend (ts : List (String × ℚ × ℚ)) (d : String) : ℚ × ℚ :=
  match ts with
  | [] => (0, 0)
  | (k, p) :: rest => if k = d then p else lookupTrend rest d

/-- `sorted_dates = sorted(trends.keys())` (src/app.py 276); Python
`sorted` is stable, as is `List.insertionSort`. -/
def sorted_dates (rows : List Txn) : List String :=
  List.insertionSort (· ≤ ·) ((trends rows).map Prod.fst)

/-- `income_trend = [trends[date]["income"] for date in sorted_dates]`
(src/app.py 277). -/
def income_trend (rows : List Txn) : List ℚ :=
  (sorted_dates rows).map (fun d => (lookupTrend (trends rows) d).1)

/-- `expenses_trend = [trends[date]["expenses"] for date in sorted_dates]`
(src/app.py 278). -/
def expenses_trend (rows : List Txn) : List ℚ :=
  (sorted_dates rows).map (fun d => (lookupTrend (trends rows) d).2)

theorem lookupTrend_trendUpd (ts : List (String × ℚ × ℚ)) (d : String)
    (isInc : Bool) (a : ℚ) (d2 : String) :
    lookupTrend (trendUpd ts d isInc a) d2 =
      if d = d2 then
        (if isInc then ((lookupTrend ts d2).1 + a, (lookupTrend ts d2).2)
         else ((lookupTrend ts d2).1, (lookupTrend ts d2).2 + a))
      else lookupTrend ts d2 := by
  induction ts with
  | nil =>
    by_cases h : d = d2 <;> cases isInc <;> simp [trendUpd, lookupTrend, h]
  | cons q rest ih =>
    obtain ⟨k, p⟩ := q
    by_cases hk : k = d
    · subst hk
      by_cases h2 : k = d2
      · subst h2
        cases isInc <;> simp [trendUpd, lookupTrend]
      · simp [trendUpd, lookupTrend, h2]
    · by_cases h2 : k = d2
      · subst h2
        have hd : ¬ d = k := fun h => hk h.symm
        simp [trendUpd, lookupTrend, hk, hd]
      · simp [trendUpd, lookupTrend, hk, h2, ih]

theorem keys_trendUpd (ts : List (String × ℚ × ℚ)) (d : String)
    (isInc : Bool) (a : ℚ) :
    (trendUpd ts d isInc a).map Prod.fst =
      if d ∈ ts.map Prod.fst then ts.map Prod.fst else ts.map Prod.fst ++ [d] := by
  induction ts with
  | nil => simp [trendUpd]
  | cons q rest ih =>
    obtain ⟨k, p⟩ := q
    by_cases hk : k = d
    · subst hk
      simp [trendUpd]
    · have hd : ¬ d = k := fun h => hk h.symm
      simp only [trendUpd, hk, if_false, List.map_cons, List.mem_cons, hd, false_or]
      rw [ih]
      by_cases hmem : d ∈ rest.map Prod.fst <;> simp [hmem]

theorem keys_trends_nodup (rows : List Txn) :
    ∀ ts : List (String × ℚ × ℚ), (ts.map Prod.fst).Nodup →
      ((rows.foldl (fun ts r => trendUpd ts r.date (r.type == "income") r.amount) ts).map
        Prod.fst).Nodup := by
  induction rows with
  | nil => intro ts h; simpa using h
  | cons r rest ih =>
    intro ts h
    simp only [List.foldl_cons]
    apply ih
    rw [keys_trendUpd]
    by_cases hmem : r.date ∈ ts.map Prod.fst
    · simpa [hmem] using h
    · simp only [hmem, if_false]
      rw [List.nodup_append]
      exact ⟨h, List.nodup_singleton _, by simpa using hmem⟩

theorem keys_trends_mem (rows : List Txn) :
    ∀ (ts : List (String × ℚ × ℚ)) (d : String),
      (d ∈ (rows.foldl (fun ts r => trendUpd ts r.date (r.type == "income") r.amount) ts).map
          Prod.fst ↔
        d ∈ ts.map Prod.fst ∨ ∃ r ∈ rows, r.date = d) := by
  induction rows with
  | nil => intro ts d; simp
  | cons r rest ih =>
    intro ts d
    simp only [List.foldl_cons]
    rw [ih]
    rw [keys_trendUpd]
    by_cases hmem : r.date ∈ ts.map Prod.fst
    · simp only [hmem, if_true]
      constructor
      · rintro (h | ⟨r2, hr2, hd2⟩)
        · exact Or.inl h
        · exact Or.inr ⟨r2, List.mem_cons_of_mem _ hr2, hd2⟩
      · rintro (h | ⟨r2, hr2, hd2⟩)
        · exact Or.inl h
        · rcases List.mem_cons.mp hr2 with h2 | h2
          · subst h2; exact Or.inl (hd2 ▸ hmem)
          · exact Or.inr ⟨r2, h2, hd2⟩
    · simp only [hmem, if_false, List.mem_append, List.mem_singleton]
      constructor
      · rintro ((h | h) | ⟨r2, hr2, hd2⟩)
        · exact Or.inl h
        · exact Or.inr ⟨r, List.mem_cons_self r rest, h.symm⟩
        · exact Or.inr ⟨r2, List.mem_cons_of_mem _ hr2, hd2⟩
      · rintro (h | ⟨r2, hr2, hd2⟩)
        · exact Or.inl (Or.inl h)
        · rcases List.mem_cons.mp hr2 with h2 | h2
          · subst h2; exact Or.inl (Or.inr hd2.symm)
          · exact Or.inr ⟨r2, h2, hd2⟩

/-- Per-date income contribution of a row list. -/
def incSumOn (rows : List Txn) (d : String) : ℚ :=
  ((rows.filter (fun r => r.date == d && r.type == "income")).map Txn.amount).sum

/-- Per-date else-branch (non-income) contribution of a row list. -/
def expSumOn (rows : List Txn) (d : String) : ℚ :=
  ((rows.filter (fun r => r.date == d && !(r.type == "income"))).map Txn.amount).sum

theorem lookupTrend_foldl (rows : List Txn) :
    ∀ (ts : List (String × ℚ × ℚ)) (d : String),
      lookupTrend
        (rows.foldl (fun ts r => trendUpd ts r.date (r.type == "income") r.amount) ts) d =
      ((lookupTrend ts d).1 + incSumOn rows d, (lookupTrend ts d).2 + expSumOn rows d) := by
  induction rows with
  | nil => intro ts d; simp [incSumOn, expSumOn]
  | cons r rest ih =>
    intro ts d
    simp only [List.foldl_cons]
    rw [ih, lookupTrend_trendUpd]
    by_cases hd : r.date = d
    · simp only [hd, if_true]
      by_cases hinc : r.type == "income"
      · have : incSumOn (r :: rest) d = r.amount + incSumOn rest d := by
          simp [incSumOn, List.filter_cons, hd, hinc]
        have h2 : expSumOn (r :: rest) d = expSumOn rest d := by
          simp [expSumOn, List.filter_cons, hinc]
        rw [this, h2, hinc]
        simp [add_assoc]
      · have hb : (r.type == "income") = false := by simpa using hinc
        have : incSumOn (r :: rest) d = incSumOn rest d := by
          simp [incSumOn, List.filter_cons, hb]
        have h2 : expSumOn (r :: rest) d = r.amount + expSumOn rest d := by
          simp [expSumOn, List.filter_cons, hd, hb]
        rw [this, h2, hb]
        simp [add_assoc]
    · have hb : (r.date == d) = false := by simpa using hd
      have : incSumOn (r :: rest) d = incSumOn rest d := by
        simp [incSumOn, List.filter_cons, hb]
      have h2 : expSumOn (r :: rest) d = expSumOn rest d := by
        simp [expSumOn, List.filter_cons, hb]
      rw [this, h2, if_neg hd]

/-- C5: the trend series lists the distinct transaction dates in
ascending sorted order, paired with parallel per-date income and
expense sums (a date's missing side summing to 0); on the spec's
three-transaction example the dates are 2024-01-01 and 2024-01-02, the
income series is `[100, 0]` and the expenses series `[40, 20]`.  (The
per-date expenses sum matches the `type = "expenses"` description under
the stated premise that every type is `income` or `expenses`, since the
code's else-branch charges every non-income row to expenses.) -/
theorem trend_series_correct :
    (∀ rows : List Txn,
      (sorted_dates rows).Sorted (· ≤ ·) ∧
      (sorted_dates rows).Nodup ∧
      (∀ d, d ∈ sorted_dates rows ↔ ∃ r ∈ rows, r.date = d) ∧
      income_trend rows = (sorted_dates rows).map (incSumOn rows) ∧
      ((∀ r ∈ rows, r.type = "income" ∨ r.type = "expenses") →
        expenses_trend rows = (sorted_dates rows).map (fun d =>
          ((rows.filter (fun r => r.date == d && r.type == "expenses")).map
            Txn.amount).sum))) ∧
    (sorted_dates
        [⟨1, "salary", "Salary", "income", 100, "2024-01-01"⟩,
         ⟨1, "food", "Food", "expenses", 40, "2024-01-01"⟩,
         ⟨1, "bus", "Transport", "expenses", 20, "2024-01-02"⟩] =
      ["2024-01-01", "2024-01-02"] ∧
     income_trend
        [⟨1, "salary", "Salary", "income", 100, "2024-01-01"⟩,
         ⟨1, "food", "Food", "expenses", 40, "2024-01-01"⟩,
         ⟨1, "bus", "Transport", "expenses", 20, "2024-01-02"⟩] = [100, 0] ∧
     expenses_trend
        [⟨1, "salary", "Salary", "income", 100, "2024-01-01"⟩,
         ⟨1, "food", "Food", "expenses", 40, "2024-01-01"⟩,
         ⟨1, "bus", "Transport", "expenses", 20, "2024-01-02"⟩] = [40, 20]) := by
  constructor
  · intro rows
    refine ⟨?_, ?_, ?_, ?_, ?_⟩
    · exact List.sorted_insertionSort _ _
    · exact ((List.perm_insertionSort _ _).nodup_iff).mpr
        (keys_trends_nodup rows [] (by simp))
    · intro d
      rw [sorted_dates, List.mem_insertionSort, trends, keys_trends_mem rows [] d]
      simp
    · apply List.map_congr_left
      intro d _
      rw [trends, lookupTrend_foldl rows [] d]
      show (0 : ℚ) + incSumOn rows d = incSumOn rows d
      rw [zero_add]
    · intro h
      apply List.map_congr_left
      intro d _
      rw [trends, lookupTrend_foldl rows [] d]
      show (0 : ℚ) + expSumOn rows d = _
      rw [zero_add, expSumOn]
      congr 2
      apply List.filter_congr
      intro r hr
      rcases h r hr with ht | ht <;> simp [ht]
  · refine ⟨?_, ?_, ?_⟩ <;>
      simp +decide [sorted_dates, trends, trendUpd, lookupTrend, income_trend,
        expenses_trend, List.insertionSort, List.orderedInsert]

/-- Witness for C5: the type-premise discharged on the spec's concrete
three-transaction example. -/
theorem trend_series_correct_witness :
    expenses_trend
        [⟨1, "salary", "Salary", "income", 100, "2024-01-01"⟩,
         ⟨1, "food", "Food", "expenses", 40, "2024-01-01"⟩,
         ⟨1, "bus", "Transport", "expenses", 20, "2024-01-02"⟩] =
      (sorted_dates
        [⟨1, "salary", "Salary", "income", 100, "2024-01-01"⟩,
         ⟨1, "food", "Food", "expenses", 40, "2024-01-01"⟩,
         ⟨1, "bus", "Transport", "expenses", 20, "2024-01-02"⟩]).map (fun d =>
          (([⟨1, "salary", "Salary", "income", 100, "2024-01-01"⟩,
             ⟨1, "food", "Food", "expenses", 40, "2024-01-01"⟩,
             ⟨1, "bus", "Transport", "expenses", 20, "2024-01-02"⟩] : List Txn).filter
            (fun r => r.date == d && r.type == "expenses")).map Txn.amount |>.sum) :=
  (trend_series_correct.1 _).2.2.2.2 (by decide)

/-! ## Report Document Builder (`build_transaction_pdf`,
src/helpers.py 20-286) -/

/-- A rendered table cell.  `money q` stands for the `f"${q:,.2f}"`
rendering and `percent q` for `f"{q:.1f}%"`; keeping the exact numeric
value (rather than a digit string) loses nothing any claim inspects. -/
inductive PdfCell where
  | str (s : String)
  | money (q : ℚ)
  | percent (q : ℚ)
deriving DecidableEq, Repr

/-- A flowable appended to `elements`: a styled paragraph, a table, or
a spacer (styling boilerplate such as colors is presentation-only and
not modelled). -/
inductive PdfElem where
  | par (text style : String)
  | table (data : List (List PdfCell))
  | spacer (w h : ℕ)
deriving DecidableEq, Repr

/-- Python `s[:30]`. -/
def strTake (s : String) (n : ℕ) : String := ⟨s.data.take n⟩

/-- `summary_data` (src/helpers.py 88-93). -/
def summaryData (total_income total_expenses balance : ℚ) : List (List PdfCell) :=
  [[PdfCell.str "Metric", PdfCell.str "Amount"],
   [PdfCell.str "Total Income", PdfCell.money total_income],
   [PdfCell.str "Total Expenses", PdfCell.money total_expenses],
   [PdfCell.str "Net Balance", PdfCell.money balance]]

/-- `category_data` (src/helpers.py 137-146): header row plus one row
per category of `get_category_summary`, with percentage of the
recomputed expense total (0 when that total is not positive). -/
def categoryData (txns : List Txn) : List (List PdfCell) :=
  let cs := get_category_summary txns
  let total := (cs.map Prod.snd).sum
  [PdfCell.str "Category", PdfCell.str "Amount", PdfCell.str "Percentage"] ::
    cs.map (fun p =>
      [PdfCell.str p.1, PdfCell.money p.2,
       PdfCell.percent (if 0 < total then p.2 / total * 100 else 0)])

/-- `table_data` (src/helpers.py 184-196): header row plus one row per
transaction, description display-truncated to 30 characters. -/
def txnTableData (txns : List Txn) : List (List PdfCell) :=
  [PdfCell.str "Date", PdfCell.str "Description", PdfCell.str "Category",
   PdfCell.str "Type", PdfCell.str "Amount"] ::
    txns.map (fun t =>
      [PdfCell.str t.date, PdfCell.str (strTake t.description 30),
       PdfCell.str t.category, PdfCell.str t.type, PdfCell.money t.amount])

/-- The `elements` list assembled by `build_transaction_pdf`
(src/helpers.py 77-278), in source order: header, financial summary,
category breakdown only when `get_category_summary` is non-empty
(Python truthiness of the dict), transaction details with the
"No transactions available." fallback for an empty list, and the
footer.  `today` and `stamp` stand for the two `datetime.now()`
renderings. -/
def buildElements (txns : List Txn) (total_income total_expenses balance : ℚ)
    (today stamp : String) : List PdfElem :=
  [PdfElem.par ("Financial Report - " ++ today) "Subtitle",
   PdfElem.spacer 1 12,
   PdfElem.par "Financial Summary" "SectionHeading",
   PdfElem.table (summaryData total_income total_expenses balance),
   PdfElem.spacer 1 20] ++
  (if get_category_summary txns = [] then []
   else
    [PdfElem.par "Expense Breakdown by Category" "SectionHeading",
     PdfElem.table (categoryData txns),
     PdfElem.spacer 1 20]) ++
  [PdfElem.par "Transaction Details" "SectionHeading"] ++
  (if txns = [] then [PdfElem.par "No transactions available." "NoData"]
   else [PdfElem.table (txnTableData txns)]) ++
  [PdfElem.spacer 1 30,
   PdfElem.par "Generated by BudgetBuddy Financial Tracker" "Footer",
   PdfElem.par stamp "Footer"]

/-- `pdf.build(elements)` (src/helpers.py 281): the only effectful step
of the `try` body; it throws exactly when the caller-supplied sink
cannot be written, which the Boolean `sinkOk` environment models. -/
def pdfBuild (filename : String) (es : List PdfElem) (sinkOk : Bool) :
    Except String Unit :=
  if sinkOk then Except.ok () else Except.error "could not write"

/-- The `try` body of `build_transaction_pdf` (src/helpers.py 31-282):
assemble `elements` (pure in this embedding), run `pdf.build`, return
`True`.  An `Except.error` is an escaping Python exception. -/
def pdfTryBody (txns : List Txn) (filename : String)
    (total_income total_expenses balance : ℚ) (today stamp : String)
    (sinkOk : Bool) : Except String Bool :=
  match pdfBuild filename
      (buildElements txns total_income total_expenses balance today stamp) sinkOk with
  | Except.ok _ => Except.ok true
  | Except.error e => Except.error e

/-- `build_transaction_pdf` (src/helpers.py 20-286): the whole body is
wrapped in `try/except Exception`, which logs and returns `False`. -/
def build_transaction_pdf (txns : List Txn) (filename : String)
    (total_income total_expenses balance : ℚ) (today stamp : String)
    (sinkOk : Bool) : Bool :=
  match pdfTryBody txns filename total_income total_expenses balance today stamp sinkOk with
  | Except.ok b => b
  | Except.error _ => false

/-- C8: for an empty transaction list the builder still produces the
full document — the element list is exactly header, summary, the
transaction-detail section carrying the "No transactions available."
notice, and footer — with no expense-breakdown section, and the build
reports success. -/
theorem buildElements_empty (filename : String)
    (total_income total_expenses balance : ℚ) (today stamp : String) :
    buildElements [] total_income total_expenses balance today stamp =
      [PdfElem.par ("Financial Report - " ++ today) "Subtitle",
       PdfElem.spacer 1 12,
       PdfElem.par "Financial Summary" "SectionHeading",
       PdfElem.table (summaryData total_income total_expenses balance),
       PdfElem.spacer 1 20,
       PdfElem.par "Transaction Details" "SectionHeading",
       PdfElem.par "No transactions available." "NoData",
       PdfElem.spacer 1 30,
       PdfElem.par "Generated by BudgetBuddy Financial Tracker" "Footer",
       PdfElem.par stamp "Footer"] ∧
    PdfElem.par "No transactions available." "NoData" ∈
      buildElements [] total_income total_expenses balance today stamp ∧
    PdfElem.par "Expense Breakdown by Category" "SectionHeading" ∉
      buildElements [] total_income total_expenses balance today stamp ∧
    build_transaction_pdf [] filename total_income total_expenses balance
      today stamp true = true := by
  refine ⟨rfl, ?_, ?_, rfl⟩
  · simp [buildElements, get_category_summary]
  · simp +decide [buildElements, get_category_summary]

/-- C9: for every input the builder never lets an exception escape: the
`try` body either finishes (and the function returns `True`) or throws
(and the function returns `False`); the caller always receives a
Boolean. -/
theorem build_transaction_pdf_never_raises (txns : List Txn) (filename : String)
    (total_income total_expenses balance : ℚ) (today stamp : String)
    (sinkOk : Bool) :
    (pdfTryBody txns filename total_income total_expenses balance today stamp
        sinkOk = Except.ok true ∧
      build_transaction_pdf txns filename total_income total_expenses balance
        today stamp sinkOk = true) ∨
    ((∃ e, pdfTryBody txns filename total_income total_expenses balance today stamp
        sinkOk = Except.error e) ∧
      build_transaction_pdf txns filename total_income total_expenses balance
        today stamp sinkOk = false) := by
  cases sinkOk with
  | true => exact Or.inl ⟨rfl, rfl⟩
  | false => exact Or.inr ⟨⟨"could not write", rfl⟩, rfl⟩

/-! ## `get_last_month_expenses` (src/helpers.py 368-378) -/

/-- An SQLite storage-class value (no BLOB column occurs here). -/
inductive SqlVal where
  | null
  | int (i : ℤ)
  | real (r : ℚ)
  | text (t : String)
deriving DecidableEq, Repr

/-- Whether an SQLite `=` comparison evaluates to TRUE: `NULL` compares
equal to nothing; INTEGER and REAL compare numerically; values of
different storage classes otherwise — in particular TEXT versus
INTEGER — are never equal (SQLite orders NULL < numeric < TEXT with no
cross-class coercion for expression operands without column affinity). -/
def sqlEqTrue : SqlVal → SqlVal → Bool
  | SqlVal.null, _ => false
  | _, SqlVal.null => false
  | SqlVal.int a, SqlVal.int b => a == b
  | SqlVal.int a, SqlVal.real b => (a : ℚ) == b
  | SqlVal.real a, SqlVal.int b => a == ((b : ℚ))
  | SqlVal.real a, SqlVal.real b => a == b
  | SqlVal.text a, SqlVal.text b => a == b
  | SqlVal.text _, SqlVal.int _ => false
  | SqlVal.text _, SqlVal.real _ => false
  | SqlVal.int _, SqlVal.text _ => false
  | SqlVal.real _, SqlVal.text _ => false

/-- SQLite `strftime('%m', date)` on the TEXT `date` column: the
two-digit month as TEXT when the value starts with an ISO-8601
`YYYY-MM` shape, and NULL otherwise.  Whatever the precise parse, the
result is TEXT or NULL — never an INTEGER — which is the only fact the
theorem below uses. -/
def strftime_m (date : String) : SqlVal :=
  let cs := date.data
  let d1 := cs.getD 5 ' '
  let d2 := cs.getD 6 ' '
  let mval := (d1.toNat - 48) * 10 + (d2.toNat - 48)
  if (cs.take 4).all Char.isDigit && (cs.getD 4 ' ' == '-') && d1.isDigit &&
      d2.isDigit && decide (7 ≤ cs.length) && decide (1 ≤ mval) &&
      decide (mval ≤ 12) then
    SqlVal.text ⟨[d1, d2]⟩
  else SqlVal.null

/-- `get_last_month_expenses(user_id)` (src/helpers.py 368-378) over an
explicit database: the Python code binds the *integer*
`(datetime.now() - timedelta(days=30)).month` as the parameter compared
against `strftime('%m', date)`, and falls back to `0` when the summed
result is falsy (`NULL`). -/
def get_last_month_expenses (db : List Txn) (uid : ℤ) (last_month : ℤ) : ℚ :=
  pyOr0 (sqlSumAmount db (fun t =>
    t.user_id == uid && t.type == "expenses" &&
      sqlEqTrue (strftime_m t.date) (SqlVal.int last_month)))

theorem sqlEqTrue_strftime_m_int (d : String) (m : ℤ) :
    sqlEqTrue (strftime_m d) (SqlVal.int m) = false := by
  rw [strftime_m]
  split
  · rfl
  · rfl

/-- C10: the last-month query always yields 0 — its filter compares the
TEXT result of `strftime('%m', date)` with an INTEGER bind value, which
is never equal under SQLite comparison semantics, so the sum is NULL
and the fallback returns 0 — for every database, user and month. -/
theorem get_last_month_expenses_always_zero (db : List Txn) (uid : ℤ)
    (last_month : ℤ) :
    get_last_month_expenses db uid last_month = 0 := by
  rw [get_last_month_expenses]
  have hfil : db.filter (fun t =>
      t.user_id == uid && t.type == "expenses" &&
        sqlEqTrue (strftime_m t.date) (SqlVal.int last_month)) = [] := by
    apply List.filter_eq_nil_iff.mpr
    intro t _
    simp [sqlEqTrue_strftime_m_int]
  rw [sqlSumAmount, hfil]
  rfl

end BudgetBuddy
